import Mathlib

/-!
Verification development for the packet dispatch loop of a live combat-meter
(`src/src-tauri/src/parser/mod.rs`).  The dispatch loop itself, its opcode
routing table, the publish decision and the publication filter are embedded
from the source; the cooperating trackers and the encounter aggregator live in
sibling modules that are not part of the provided sources, so their operations
are modelled from the specification and carry doc comments saying so.
-/

namespace LoaLogs

/-- Entity classification used by the trackers and by the publish filter
(`EntityType` in `models`). -/
inductive EntityType
  | Unknown
  | Player
  | Npc
  | Esther
  | Summon
  | Projectile
deriving DecidableEq

/-- A tracked in-game entity: network object id, type, display name, class id,
gear level, stable character id (players), owner back-reference
(summons/projectiles). -/
structure Entity where
  id : Nat := 0
  entityType : EntityType := EntityType.Unknown
  name : String := ""
  classId : Nat := 0
  gearLevel : Nat := 0
  characterId : Nat := 0
  ownerId : Nat := 0
deriving DecidableEq

/-- Association-list lookup, the map primitive of this embedding. -/
def alookup {α β : Type} [BEq α] (k : α) : List (α × β) → Option β
  | [] => none
  | kv :: rest => if kv.1 == k then some kv.2 else alookup k rest

/-- Association-list upsert: replaces the first binding of the key, appends a
fresh binding when the key is absent. -/
def aupsert {α β : Type} [BEq α] (k : α) (v : β) : List (α × β) → List (α × β)
  | [] => [(k, v)]
  | kv :: rest => if kv.1 == k then (kv.1, v) :: rest else kv :: aupsert k v rest

/-- Association-list update-or-insert: applies the function to the existing
binding, or to the supplied default record when the key is absent. -/
def aupdate {α β : Type} [BEq α] (k : α) (f : β → β) (dflt : β) : List (α × β) → List (α × β)
  | [] => [(k, f dflt)]
  | kv :: rest => if kv.1 == k then (kv.1, f kv.2) :: rest else kv :: aupdate k f dflt rest

/-- Modelled from the spec: the Identity Resolver (`id_tracker.rs`, not in the
provided sources) maps raw network object ids to stable character ids. -/
structure IdTracker where
  charMap : List (Nat × Nat) := []
deriving DecidableEq

/-- Modelled from the spec: records the object id → character id binding of a
player when it is introduced. -/
def IdTracker.registerCharId (t : IdTracker) (objectId characterId : Nat) : IdTracker :=
  { charMap := aupsert objectId characterId t.charMap }

/-- Modelled from the spec: resolves the local player's object id to its stable
character id, 0 when unknown. -/
def IdTracker.get_local_character_id (t : IdTracker) (objectId : Nat) : Nat :=
  (alookup objectId t.charMap).getD 0

/-- A party member record: stable character id plus display name (eviction is
by name). -/
structure PartyMember where
  characterId : Nat := 0
  name : String := ""
deriving DecidableEq

/-- A raid/party instance and its member set. -/
structure PartyInstance where
  raidInstanceId : Nat := 0
  partyInstanceId : Nat := 0
  members : List PartyMember := []
deriving DecidableEq

/-- Modelled from the spec: the Party Tracker (`party_tracker.rs`, not in the
provided sources) owns the raid/party instance → member-set mapping. -/
structure PartyTracker where
  parties : List PartyInstance := []
deriving DecidableEq

/-- Modelled from the spec: upserts a member into a member set keyed by
character id, so the set never contains duplicate character ids. -/
def upsertMember (characterId : Nat) (name : Option String) : List PartyMember → List PartyMember
  | [] => [{ characterId := characterId, name := name.getD "" }]
  | m :: rest =>
    if m.characterId == characterId then
      { characterId := characterId, name := name.getD m.name } :: rest
    else m :: upsertMember characterId name rest

/-- Modelled from the spec: `add` upserts a member into the identified party,
creating the party record if absent; membership has upsert semantics. -/
def PartyTracker.add (t : PartyTracker) (raidInstanceId partyInstanceId characterId : Nat)
    (_classId : Nat) (name : Option String) : PartyTracker :=
  if t.parties.any (fun p => p.partyInstanceId == partyInstanceId) then
    { parties := t.parties.map (fun p =>
        if p.partyInstanceId == partyInstanceId then
          { p with raidInstanceId := raidInstanceId,
                   members := upsertMember characterId name p.members }
        else p) }
  else
    { parties := t.parties ++
        [{ raidInstanceId := raidInstanceId, partyInstanceId := partyInstanceId,
           members := [{ characterId := characterId, name := name.getD "" }] }] }

/-- Modelled from the spec: `remove` evicts a member by display name from the
identified party. -/
def PartyTracker.remove (t : PartyTracker) (partyInstanceId : Nat) (name : String) : PartyTracker :=
  { parties := t.parties.map (fun p =>
      if p.partyInstanceId == partyInstanceId then
        { p with members := p.members.filter (fun m => m.name != name) }
      else p) }

/-- Modelled from the spec: whether two character ids share a party. -/
def PartyTracker.inSameParty (t : PartyTracker) (a b : Nat) : Bool :=
  t.parties.any (fun p =>
    p.members.any (fun m => m.characterId == a) && p.members.any (fun m => m.characterId == b))

/-- Status-effect registry scope key: locally scoped records are keyed by
object id, party scoped records by character id. -/
inductive StatusEffectTargetType
  | Local
  | Party
deriving DecidableEq

/-- An active status-effect record: effect instance id, owning (source) object
id, target key, effect id, expiration tick, scope. -/
structure StatusEffectDetails where
  instanceId : Nat := 0
  sourceId : Nat := 0
  targetId : Nat := 0
  statusEffectId : Nat := 0
  expirationTick : Nat := 0
  targetType : StatusEffectTargetType := StatusEffectTargetType.Local
deriving DecidableEq

/-- Modelled from the spec: the Status Effect Tracker (`status_tracker.rs`,
not in the provided sources) owns the active-effect records per target. -/
structure StatusTracker where
  effects : List StatusEffectDetails := []
deriving DecidableEq

/-- Modelled from the spec: registers an effect, replacing any record with the
same instance id on the same target and scope. -/
def StatusTracker.register_status_effect (t : StatusTracker) (eff : StatusEffectDetails) :
    StatusTracker :=
  { effects := eff :: t.effects.filter (fun e =>
      !(e.instanceId == eff.instanceId && e.targetId == eff.targetId
        && e.targetType == eff.targetType)) }

/-- Modelled from the spec: updates an active effect's expiration tick by
instance id. -/
def StatusTracker.update_status_duration (t : StatusTracker)
    (instanceId targetId expirationTick : Nat) (tt : StatusEffectTargetType) : StatusTracker :=
  { effects := t.effects.map (fun e =>
      if e.instanceId == instanceId && e.targetId == targetId && e.targetType == tt then
        { e with expirationTick := expirationTick }
      else e) }

/-- Modelled from the spec: removes a set of effect instance ids from a target
explicitly. -/
def StatusTracker.remove_status_effects (t : StatusTracker) (targetId : Nat) (ids : List Nat)
    (tt : StatusEffectTargetType) : StatusTracker :=
  { effects := t.effects.filter (fun e =>
      !(e.targetType == tt && e.targetId == targetId && ids.contains e.instanceId)) }

/-- Modelled from the spec: the implicit-removal path — removes all locally
scoped effects referencing an object id when that object is unpublished
(implicit cleanup, prevents stale effect leakage). -/
def StatusTracker.remove_local_object (t : StatusTracker) (objectId : Nat) : StatusTracker :=
  { effects := t.effects.filter (fun e =>
      !(e.targetType == StatusEffectTargetType.Local
        && (e.targetId == objectId || e.sourceId == objectId))) }

/-- Modelled from the spec: the query of the Status Effect Tracker — given an
attacking entity, a target entity and the local player's character id, returns
the effect ids currently active on the attacker and on the target; Local
effects are visible only on the exact object, Party effects to any member
sharing a party with the local player. -/
def StatusTracker.get_status_effects (t : StatusTracker) (pt : PartyTracker)
    (source target : Entity) (localCharacterId : Nat) : List Nat × List Nat :=
  let visible := fun (e : Entity) (eff : StatusEffectDetails) =>
    match eff.targetType with
    | StatusEffectTargetType.Local => eff.targetId == e.id
    | StatusEffectTargetType.Party =>
      eff.targetId == e.characterId && pt.inSameParty e.characterId localCharacterId
  ((t.effects.filter (visible source)).map (fun eff => eff.statusEffectId),
   (t.effects.filter (visible target)).map (fun eff => eff.statusEffectId))

/-- Modelled from the spec: the Entity Tracker (`entity_tracker.rs`, not in the
provided sources) owns the canonical object-id → Entity map and the local
player's object id. -/
structure EntityTracker where
  entities : List (Nat × Entity) := []
  localPlayerId : Nat := 0
deriving DecidableEq

/-- Modelled from the spec: the get-or-create fallback — when a damage or
status event references an object id not yet explicitly introduced, a minimal
placeholder entity of unknown type is synthesized so downstream logic never
fails on a missing key. -/
def EntityTracker.get_or_create_entity (t : EntityTracker) (id : Nat) : Entity × EntityTracker :=
  match alookup id t.entities with
  | some e => (e, t)
  | none =>
    let e : Entity := { id := id, name := toString id }
    (e, { t with entities := aupsert id e t.entities })

/-- Modelled from the spec: resolves the source entity of a skill or damage
event — a projectile or summon source is resolved through its owner-id
back-reference; unseen ids fall back to get-or-create. -/
def EntityTracker.get_source_entity (t : EntityTracker) (id : Nat) : Entity × EntityTracker :=
  match alookup id t.entities with
  | some e =>
    if (e.entityType == EntityType.Projectile || e.entityType == EntityType.Summon)
        && e.ownerId != 0 then
      t.get_or_create_entity e.ownerId
    else (e, t)
  | none => t.get_or_create_entity id

/-- Modelled from the spec: the best-effort player-type heuristic — when an
entity's type is still ambiguous and the skill id being cast belongs to the
player-only skill table, the entity's type is upgraded to Player; this is
approximate inference, not guaranteed correct. -/
def EntityTracker.guess_is_player (t : EntityTracker) (playerSkills : List Nat)
    (e : Entity) (skillId : Nat) : Entity × EntityTracker :=
  if e.entityType == EntityType.Unknown && playerSkills.contains skillId then
    let e2 := { e with entityType := EntityType.Player }
    (e2, { t with entities := aupsert e2.id e2 t.entities })
  else (e, t)

/-- One (stat type, value) pair from a packet's stat payload. -/
structure StatPair where
  statType : Nat := 0
  value : Int := 0
deriving DecidableEq

/-- Modelled from the spec: extraction of current/max HP from a packet's
stat-pair payload (`get_current_and_max_hp` in `entity_tracker.rs`, not in the
provided sources); stat-type codes 1 and 27 stand for current HP and max HP. -/
def get_current_and_max_hp (stats : List StatPair) : Int × Int :=
  stats.foldl (fun acc sp =>
    if sp.statType == 1 then (sp.value, acc.2)
    else if sp.statType == 27 then (acc.1, sp.value)
    else acc) (0, 0)

/-- Decoded `PKTCounterAttackNotify`, fields as read by the loop. -/
structure PKTCounterAttackNotify where
  source_id : Nat := 0
deriving DecidableEq

/-- Decoded `PKTDeathNotify`. -/
structure PKTDeathNotify where
  target_id : Nat := 0
deriving DecidableEq

/-- Decoded `PKTIdentityGaugeChangeNotify`. -/
structure PKTIdentityGaugeChangeNotify where
  player_id : Nat := 0
  identity_gauge : Int := 0
deriving DecidableEq

/-- Decoded `PKTInitEnv`. -/
structure PKTInitEnv where
  player_id : Nat := 0
deriving DecidableEq

/-- Decoded `PKTInitPC`. -/
structure PKTInitPC where
  player_id : Nat := 0
  name : String := ""
  class_id : Nat := 0
  character_id : Nat := 0
  gear_level : Nat := 0
  stat_pair : List StatPair := []
deriving DecidableEq

/-- Modelled from the spec: the migration payload — the id-remap table issued
by the server on a zone transfer (the concrete `PKTMigrationExecute` layout is
part of the external codec). -/
structure PKTMigrationExecute where
  remaps : List (Nat × Nat) := []
deriving DecidableEq

/-- Player struct carried by `PKTNewPC`. -/
structure PCStruct where
  player_id : Nat := 0
  name : String := ""
  class_id : Nat := 0
  character_id : Nat := 0
  gear_level : Nat := 0
  stat_pair : List StatPair := []
deriving DecidableEq

/-- Decoded `PKTNewPC`. -/
structure PKTNewPC where
  pc_struct : PCStruct := {}
deriving DecidableEq

/-- NPC struct carried by `PKTNewNpc` / `PKTNewNpcSummon`. -/
structure NpcStruct where
  object_id : Nat := 0
  type_id : Nat := 0
  stat_pair : List StatPair := []
deriving DecidableEq

/-- Decoded `PKTNewNpc`. -/
structure PKTNewNpc where
  npc_struct : NpcStruct := {}
deriving DecidableEq

/-- Decoded `PKTNewNpcSummon`. -/
structure PKTNewNpcSummon where
  npc_data : NpcStruct := {}
  owner_id : Nat := 0
deriving DecidableEq

/-- Decoded `PKTNewProjectile`. -/
structure PKTNewProjectile where
  projectile_id : Nat := 0
  owner_id : Nat := 0
deriving DecidableEq

/-- Decoded `PKTParalyzationStateNotify`. -/
structure PKTParalyzationStateNotify where
  object_id : Nat := 0
  paralyzation_point : Nat := 0
  paralyzation_max_point : Nat := 0
deriving DecidableEq

/-- One member record of `PKTPartyInfo`. -/
structure PartyMemberData where
  name : String := ""
  character_id : Nat := 0
  class_id : Nat := 0
  gear_level : Nat := 0
deriving DecidableEq

/-- Decoded `PKTPartyInfo`. -/
structure PKTPartyInfo where
  party_instance_id : Nat := 0
  raid_instance_id : Nat := 0
  party_member_datas : List PartyMemberData := []
deriving DecidableEq

/-- Decoded `PKTPartyLeaveResult`. -/
structure PKTPartyLeaveResult where
  party_instance_id : Nat := 0
  name : String := ""
deriving DecidableEq

/-- Status-effect payload carried by add notifications. -/
structure StatusEffectData where
  effect_instance_id : Nat := 0
  source_id : Nat := 0
  status_effect_id : Nat := 0
  expiration_tick : Nat := 0
deriving DecidableEq

/-- Decoded `PKTPartyStatusEffectAddNotify`. -/
structure PKTPartyStatusEffectAddNotify where
  character_id : Nat := 0
  status_effect_datas : List StatusEffectData := []
deriving DecidableEq

/-- Decoded `PKTPartyStatusEffectRemoveNotify`. -/
structure PKTPartyStatusEffectRemoveNotify where
  character_id : Nat := 0
  status_effect_instance_ids : List Nat := []
deriving DecidableEq

/-- Decoded `PKTPartyStatusEffectResultNotify`. -/
structure PKTPartyStatusEffectResultNotify where
  raid_instance_id : Nat := 0
  party_instance_id : Nat := 0
  character_id : Nat := 0
deriving DecidableEq

/-- One unpublished-object record of `PKTRemoveObject`. -/
structure UnpublishedObject where
  object_id : Nat := 0
deriving DecidableEq

/-- Decoded `PKTRemoveObject`. -/
structure PKTRemoveObject where
  unpublished_objects : List UnpublishedObject := []
deriving DecidableEq

/-- Decoded `PKTSkillStartNotify`. -/
structure PKTSkillStartNotify where
  source_id : Nat := 0
  skill_id : Nat := 0
deriving DecidableEq

/-- One damage event of a damage notification. -/
structure SkillDamageEvent where
  target_id : Nat := 0
  damage : Int := 0
  modifier : Int := 0
  cur_hp : Int := 0
  max_hp : Int := 0
deriving DecidableEq

/-- One move-linked damage event of `PKTSkillDamageAbnormalMoveNotify`. -/
structure SkillDamageAbnormalMoveEvent where
  skill_damage_event : SkillDamageEvent := {}
deriving DecidableEq

/-- Decoded `PKTSkillDamageAbnormalMoveNotify`. -/
structure PKTSkillDamageAbnormalMoveNotify where
  source_id : Nat := 0
  skill_id : Nat := 0
  skill_effect_id : Nat := 0
  skill_damage_abnormal_move_events : List SkillDamageAbnormalMoveEvent := []
deriving DecidableEq

/-- Decoded `PKTSkillDamageNotify`. -/
structure PKTSkillDamageNotify where
  source_id : Nat := 0
  skill_id : Nat := 0
  skill_effect_id : Nat := 0
  skill_damage_events : List SkillDamageEvent := []
deriving DecidableEq

/-- Decoded `PKTStatusEffectAddNotify`. -/
structure PKTStatusEffectAddNotify where
  object_id : Nat := 0
  status_effect_data : StatusEffectData := {}
deriving DecidableEq

/-- Decoded `PKTStatusEffectDurationNotify`. -/
structure PKTStatusEffectDurationNotify where
  effect_instance_id : Nat := 0
  target_id : Nat := 0
  expiration_tick : Nat := 0
deriving DecidableEq

/-- Decoded `PKTStatusEffectRemoveNotify`. -/
structure PKTStatusEffectRemoveNotify where
  object_id : Nat := 0
  status_effect_ids : List Nat := []
deriving DecidableEq

/-- Decoded `PKTTriggerStartNotify`. -/
structure PKTTriggerStartNotify where
  trigger_signal_type : Nat := 0
deriving DecidableEq

/-- Decoded `PKTZoneObjectUnpublishNotify`. -/
structure PKTZoneObjectUnpublishNotify where
  object_id : Nat := 0
deriving DecidableEq

/-- Cumulative damage statistics of an entity's combat record. -/
structure DamageStats where
  damageDealt : Int := 0
deriving DecidableEq

/-- An entity's combat record inside the encounter snapshot: cumulative damage
dealt, last-known HP, dead flag. -/
structure EncounterEntity where
  name : String := ""
  entityType : EntityType := EntityType.Unknown
  classId : Nat := 0
  currentHp : Int := 0
  maxHp : Int := 0
  isDead : Bool := false
  damageStats : DamageStats := {}
deriving DecidableEq

/-- The encounter snapshot: fight-start timestamp (0 = not started), current
boss name (empty = none), entity-key → combat-record map, and the boss pointer
resolved lazily at publish time. -/
structure Encounter where
  fightStart : Int := 0
  currentBossName : String := ""
  entities : List (String × EncounterEntity) := []
  currentBoss : Option EncounterEntity := none
deriving DecidableEq

/-- The Encounter Aggregator state as used by the dispatch loop: the snapshot
plus the phase (Idle 0, Cleared 1, Ongoing 2, Starting 3) and the raid-clear,
raid-end, boss-dead-update and saved flags; field placement follows the loop's
accesses (`state.raid_clear`, `state.raid_end`, ...) and the specification,
since `encounter_state.rs` is not in the provided sources. -/
structure EncounterState where
  encounter : Encounter := {}
  phase : Nat := 0
  raidClear : Bool := false
  raidEnd : Bool := false
  bossDeadUpdate : Bool := false
  saved : Bool := false
  localPlayerName : String := ""
deriving DecidableEq

/-- Modelled from the spec: soft reset clears the entity map and all flags
back to their initial state (used for explicit user resets and for automatic
rollover after an encounter ends); §9 records that the preserve flag's
discriminating case is unexercised in the source — both call sites pass the
same value — so the flag is accepted and ignored here. -/
def EncounterState.soft_reset (s : EncounterState) (_keepStats : Bool) : EncounterState :=
  { encounter := {}, phase := 0, raidClear := false, raidEnd := false,
    bossDeadUpdate := false, saved := false, localPlayerName := s.localPlayerName }

/-- Modelled from the spec: phase transitions are driven exclusively by
packet-derived events; the terminal transitions (raid-result → Idle 0,
boss-kill → Cleared 1) mark the encounter as ended, non-terminal ones leave it
running. -/
def EncounterState.on_phase_transition (s : EncounterState) (phase : Nat) : EncounterState :=
  { s with phase := phase, raidEnd := phase == 0 || phase == 1 }

/-- Modelled from the spec: a counterattack event mutates the acting entity's
combat record without changing phase; the record is created on first
reference. -/
def EncounterState.on_counterattack (s : EncounterState) (e : Entity) : EncounterState :=
  { s with encounter := { s.encounter with entities :=
      (aupdate e.name (fun r => r)
        { name := e.name, entityType := e.entityType, classId := e.classId }
        s.encounter.entities) } }

/-- Modelled from the spec: a death event marks the entity dead and zeroes its
HP; it does not remove the entity from the map; the death of the current boss
raises the boss-dead-update edge flag. -/
def EncounterState.on_death (s : EncounterState) (e : Entity) : EncounterState :=
  let enc := { s.encounter with entities :=
    (aupdate e.name (fun r => { r with isDead := true, currentHp := 0 })
      { name := e.name, entityType := e.entityType, isDead := true, currentHp := 0 }
      s.encounter.entities) }
  let bossEdge := s.bossDeadUpdate
      || (!s.encounter.currentBossName.isEmpty && e.name == s.encounter.currentBossName)
  { s with encounter := enc, bossDeadUpdate := bossEdge }

/-- Modelled from the spec: identity-gauge events mutate per-entity identity
tracking that lies outside the combat record modelled here; no modelled field
changes. -/
def EncounterState.on_identity_gain (s : EncounterState)
    (_pkt : PKTIdentityGaugeChangeNotify) : EncounterState :=
  s

/-- Modelled from the spec: stagger/paralysis events mutate stagger tracking
that lies outside the combat record modelled here; no modelled field
changes. -/
def EncounterState.on_stagger_change (s : EncounterState)
    (_pkt : PKTParalyzationStateNotify) : EncounterState :=
  s

/-- Modelled from the spec: zone/env init is an encounter rollover — the
snapshot is cleared and the re-keyed local player record is re-inserted. -/
def EncounterState.on_init_env (s : EncounterState) (e : Entity) : EncounterState :=
  let s2 := s.soft_reset true
  { s2 with encounter := { s2.encounter with entities :=
      [(e.name, { name := e.name, entityType := e.entityType, classId := e.classId })] } }

/-- Modelled from the spec: lifecycle event for the locally observed player —
upserts its combat record with the HP extracted from the packet and remembers
it as the local player. -/
def EncounterState.on_init_pc (s : EncounterState) (e : Entity) (hp maxHp : Int) : EncounterState :=
  let enc := { s.encounter with entities :=
    (aupdate e.name
      (fun r => { r with entityType := e.entityType, classId := e.classId,
                         currentHp := hp, maxHp := maxHp })
      { name := e.name, entityType := e.entityType, classId := e.classId,
        currentHp := hp, maxHp := maxHp }
      s.encounter.entities) }
  { s with localPlayerName := e.name, encounter := enc }

/-- Modelled from the spec: lifecycle event for another player — upserts its
combat record with the HP extracted from the packet. -/
def EncounterState.on_new_pc (s : EncounterState) (e : Entity) (hp maxHp : Int) : EncounterState :=
  { s with encounter := { s.encounter with entities :=
      (aupdate e.name
        (fun r => { r with entityType := e.entityType, classId := e.classId,
                           currentHp := hp, maxHp := maxHp })
        { name := e.name, entityType := e.entityType, classId := e.classId,
          currentHp := hp, maxHp := maxHp }
        s.encounter.entities) } }

/-- Modelled from the spec: lifecycle event for an NPC or NPC summon — upserts
its combat record with the HP extracted from the packet (boss identification
relies on external NPC data and is not modelled: the boss name is taken as the
entity's name when one is already recorded as current boss, otherwise the boss
pointer stays lazy until publish time). -/
def EncounterState.on_new_npc (s : EncounterState) (e : Entity) (hp maxHp : Int) : EncounterState :=
  { s with encounter := { s.encounter with entities :=
      (aupdate e.name
        (fun r => { r with entityType := e.entityType, currentHp := hp, maxHp := maxHp })
        { name := e.name, entityType := e.entityType, currentHp := hp, maxHp := maxHp }
        s.encounter.entities) } }

/-- Modelled from the spec: refreshes the aggregator's local-player record when
a party-info packet concerns the locally tracked player. -/
def EncounterState.update_local_player (s : EncounterState) (e : Entity) : EncounterState :=
  { s with localPlayerName := e.name }

/-- Modelled from the spec: a skill-start event mutates the caster's combat
record (cast bookkeeping) without changing phase; the record is created on
first reference. -/
def EncounterState.on_skill_start (s : EncounterState) (e : Entity)
    (_skillId : Int) (_timestamp : Int) : EncounterState :=
  { s with encounter := { s.encounter with entities :=
      (aupdate e.name (fun r => r)
        { name := e.name, entityType := e.entityType, classId := e.classId }
        s.encounter.entities) } }

/-- Modelled from the spec: the aggregator damage event — records the fight
start on the first damage, adds the damage amount to the source owner's
cumulative damage dealt, records the target's post-hit HP marking it dead at
zero, and raises the boss-dead-update edge when the dying target is the
current boss. -/
def EncounterState.on_damage (s : EncounterState) (now : Int) (owner _source target : Entity)
    (damage : Int) (_skillId _skillEffectId _modifier : Int) (curHp maxHp : Int)
    (_seOnSource _seOnTarget : List Nat) : EncounterState :=
  let enc := s.encounter
  let enc := if enc.fightStart == 0 then { enc with fightStart := now } else enc
  let enc := { enc with entities :=
    (aupdate owner.name
      (fun r => { r with damageStats := { damageDealt := r.damageStats.damageDealt + damage } })
      { name := owner.name, entityType := owner.entityType, classId := owner.classId }
      enc.entities) }
  let dead : Bool := decide (curHp ≤ 0)
  let enc := { enc with entities :=
    (aupdate target.name
      (fun r => { r with currentHp := curHp, maxHp := maxHp, isDead := dead })
      { name := target.name, entityType := target.entityType, currentHp := curHp,
        maxHp := maxHp, isDead := dead }
      enc.entities) }
  let bossEdge := s.bossDeadUpdate
      || (dead && !enc.currentBossName.isEmpty && target.name == enc.currentBossName)
  { s with encounter := enc, bossDeadUpdate := bossEdge }

/-- Modelled from the spec: zone/env init — the local player receives a fresh
object id on a zone change; stale entities are dropped from the tracker while
the local player record is kept under the new id, preserving its character
identity. -/
def EntityTracker.init_env (t : EntityTracker) (pkt : PKTInitEnv) : Entity × EntityTracker :=
  let kept := (alookup t.localPlayerId t.entities).getD
    { id := pkt.player_id, entityType := EntityType.Player }
  let e := { kept with id := pkt.player_id }
  (e, { entities := [(pkt.player_id, e)], localPlayerId := pkt.player_id })

/-- Modelled from the spec: explicit creation of the locally observed player;
the stable character id is recorded with the Identity Resolver. -/
def EntityTracker.init_pc (t : EntityTracker) (idt : IdTracker) (pkt : PKTInitPC) :
    Entity × EntityTracker × IdTracker :=
  let e : Entity := { id := pkt.player_id, entityType := EntityType.Player, name := pkt.name,
                      classId := pkt.class_id, gearLevel := pkt.gear_level,
                      characterId := pkt.character_id }
  (e, { entities := aupsert pkt.player_id e t.entities, localPlayerId := pkt.player_id },
   idt.registerCharId pkt.player_id pkt.character_id)

/-- Modelled from the spec: explicit creation of another player; the stable
character id is recorded with the Identity Resolver. -/
def EntityTracker.new_pc (t : EntityTracker) (idt : IdTracker) (pkt : PKTNewPC) :
    Entity × EntityTracker × IdTracker :=
  let e : Entity := { id := pkt.pc_struct.player_id, entityType := EntityType.Player,
                      name := pkt.pc_struct.name, classId := pkt.pc_struct.class_id,
                      gearLevel := pkt.pc_struct.gear_level,
                      characterId := pkt.pc_struct.character_id }
  (e, { t with entities := aupsert pkt.pc_struct.player_id e t.entities },
   idt.registerCharId pkt.pc_struct.player_id pkt.pc_struct.character_id)

/-- Modelled from the spec: explicit creation of an NPC (NPC names come from
external data; the type id stands in for the display name here). -/
def EntityTracker.new_npc (t : EntityTracker) (pkt : PKTNewNpc) (_maxHp : Int) :
    Entity × EntityTracker :=
  let e : Entity := { id := pkt.npc_struct.object_id, entityType := EntityType.Npc,
                      name := toString pkt.npc_struct.type_id }
  (e, { t with entities := aupsert e.id e t.entities })

/-- Modelled from the spec: explicit creation of an NPC summon, keeping the
owner id as a back-reference only. -/
def EntityTracker.new_npc_summon (t : EntityTracker) (pkt : PKTNewNpcSummon) (_maxHp : Int) :
    Entity × EntityTracker :=
  let e : Entity := { id := pkt.npc_data.object_id, entityType := EntityType.Summon,
                      name := toString pkt.npc_data.type_id, ownerId := pkt.owner_id }
  (e, { t with entities := aupsert e.id e t.entities })

/-- Modelled from the spec: registration of a projectile (entity tracker only,
no aggregator event), keeping the owner id as a back-reference. -/
def EntityTracker.new_projectile (t : EntityTracker) (pkt : PKTNewProjectile) : EntityTracker :=
  let e : Entity := { id := pkt.projectile_id, entityType := EntityType.Projectile,
                      name := toString pkt.projectile_id, ownerId := pkt.owner_id }
  { t with entities := aupsert e.id e t.entities }

/-- Modelled from the spec: the id-remap operation — rewrites all currently
tracked object ids to the new ids issued by the server while preserving each
entity's character identity; a zone transfer invalidates old object ids
without destroying combat history. -/
def EntityTracker.migration_execute (t : EntityTracker) (pkt : PKTMigrationExecute) :
    EntityTracker :=
  let remap := fun (id : Nat) => (alookup id pkt.remaps).getD id
  { entities := t.entities.map (fun kv => (remap kv.1, { kv.2 with id := remap kv.2.id })),
    localPlayerId := remap t.localPlayerId }

/-- Modelled from the spec: party-info upserts every listed member into the
identified party. -/
def EntityTracker.party_info (_t : EntityTracker) (pt : PartyTracker) (pkt : PKTPartyInfo) :
    PartyTracker :=
  pkt.party_member_datas.foldl (fun acc m =>
    acc.add pkt.raid_instance_id pkt.party_instance_id m.character_id m.class_id (some m.name)) pt

/-- Modelled from the spec: party-scoped status add — registers each contained
effect on the target character id with Party scope. -/
def party_status_effect_add (st : StatusTracker) (pkt : PKTPartyStatusEffectAddNotify) :
    StatusTracker :=
  pkt.status_effect_datas.foldl (fun acc d =>
    acc.register_status_effect
      { instanceId := d.effect_instance_id, sourceId := d.source_id,
        targetId := pkt.character_id, statusEffectId := d.status_effect_id,
        expirationTick := d.expiration_tick,
        targetType := StatusEffectTargetType.Party }) st

/-- Modelled from the spec: party-scoped status remove — removes the listed
effect instance ids from the target character id with Party scope. -/
def party_status_effect_remove (st : StatusTracker) (pkt : PKTPartyStatusEffectRemoveNotify) :
    StatusTracker :=
  st.remove_status_effects pkt.character_id pkt.status_effect_instance_ids
    StatusEffectTargetType.Party

/-- Modelled from the spec: builds a locally scoped status-effect record from
the packet payload and registers it on the given object id. -/
def build_and_register_status_effect (st : StatusTracker) (d : StatusEffectData)
    (objectId : Nat) : StatusTracker :=
  st.register_status_effect
    { instanceId := d.effect_instance_id, sourceId := d.source_id, targetId := objectId,
      statusEffectId := d.status_effect_id, expirationTick := d.expiration_tick,
      targetType := StatusEffectTargetType.Local }

/-- An incoming dispatch item, one constructor per opcode of the routing table
(`Pkt` in the source); constructors of decodable opcodes carry the
opcode-specific codec result, `Except` standing for the codec's `Result`;
`unmatched` stands for any opcode outside the table (the wildcard arm). -/
inductive Packet
  | counterAttackNotify (r : Except String PKTCounterAttackNotify)
  | deathNotify (r : Except String PKTDeathNotify)
  | identityGaugeChangeNotify (r : Except String PKTIdentityGaugeChangeNotify)
  | initEnv (r : Except String PKTInitEnv)
  | initPC (r : Except String PKTInitPC)
  | migrationExecute (r : Except String PKTMigrationExecute)
  | newPC (r : Except String PKTNewPC)
  | newNpc (r : Except String PKTNewNpc)
  | newNpcSummon (r : Except String PKTNewNpcSummon)
  | newProjectile (r : Except String PKTNewProjectile)
  | paralyzationStateNotify (r : Except String PKTParalyzationStateNotify)
  | partyInfo (r : Except String PKTPartyInfo)
  | partyLeaveResult (r : Except String PKTPartyLeaveResult)
  | partyStatusEffectAddNotify (r : Except String PKTPartyStatusEffectAddNotify)
  | partyStatusEffectRemoveNotify (r : Except String PKTPartyStatusEffectRemoveNotify)
  | partyStatusEffectResultNotify (r : Except String PKTPartyStatusEffectResultNotify)
  | raidBossKillNotify
  | raidResult
  | removeObject (r : Except String PKTRemoveObject)
  | skillCastNotify
  | skillStartNotify (r : Except String PKTSkillStartNotify)
  | skillStageNotify
  | skillDamageAbnormalMoveNotify (r : Except String PKTSkillDamageAbnormalMoveNotify)
  | skillDamageNotify (r : Except String PKTSkillDamageNotify)
  | statusEffectAddNotify (r : Except String PKTStatusEffectAddNotify)
  | statusEffectDurationNotify (r : Except String PKTStatusEffectDurationNotify)
  | statusEffectRemoveNotify (r : Except String PKTStatusEffectRemoveNotify)
  | triggerBossBattleStatus
  | triggerStartNotify (r : Except String PKTTriggerStartNotify)
  | zoneObjectUnpublishNotify (r : Except String PKTZoneObjectUnpublishNotify)
  | statusEffectSyncDataNotify
  | troopMemberUpdateMinNotify
  | unmatched

/-- The decode wrapper of the dispatch layer (`parse_pkt` in `mod.rs`): a
codec success yields the packet; a codec failure is logged (logging is I/O and
dropped in this embedding) and yields `none`, so the single packet is
discarded, never fatally and never retried. -/
def parse_pkt {T : Type} (r : Except String T) : Option T :=
  match r with
  | Except.ok pkt => some pkt
  | Except.error _ => none

/-- Holds exactly when the incoming item's opcode-specific decode failed. -/
def Packet.decodeFailed : Packet → Bool
  | Packet.counterAttackNotify (Except.error _) => true
  | Packet.deathNotify (Except.error _) => true
  | Packet.identityGaugeChangeNotify (Except.error _) => true
  | Packet.initEnv (Except.error _) => true
  | Packet.initPC (Except.error _) => true
  | Packet.migrationExecute (Except.error _) => true
  | Packet.newPC (Except.error _) => true
  | Packet.newNpc (Except.error _) => true
  | Packet.newNpcSummon (Except.error _) => true
  | Packet.newProjectile (Except.error _) => true
  | Packet.paralyzationStateNotify (Except.error _) => true
  | Packet.partyInfo (Except.error _) => true
  | Packet.partyLeaveResult (Except.error _) => true
  | Packet.partyStatusEffectAddNotify (Except.error _) => true
  | Packet.partyStatusEffectRemoveNotify (Except.error _) => true
  | Packet.partyStatusEffectResultNotify (Except.error _) => true
  | Packet.removeObject (Except.error _) => true
  | Packet.skillStartNotify (Except.error _) => true
  | Packet.skillDamageAbnormalMoveNotify (Except.error _) => true
  | Packet.skillDamageNotify (Except.error _) => true
  | Packet.statusEffectAddNotify (Except.error _) => true
  | Packet.statusEffectDurationNotify (Except.error _) => true
  | Packet.statusEffectRemoveNotify (Except.error _) => true
  | Packet.triggerStartNotify (Except.error _) => true
  | Packet.zoneObjectUnpublishNotify (Except.error _) => true
  | _ => false

/-- The mutable state owned by the dispatch loop: the four cooperating
trackers and the aggregator, plus the immutable player-only skill table
consulted by the player-type heuristic (external data in the source). -/
structure LoopState where
  idTracker : IdTracker := {}
  partyTracker : PartyTracker := {}
  statusTracker : StatusTracker := {}
  entityTracker : EntityTracker := {}
  state : EncounterState := {}
  playerSkills : List Nat := []
deriving DecidableEq

/-- One fan-out step of the damage-recording pipeline, the per-event loop body
shared by the two damage-notification opcodes: resolve target and source
entities (creating placeholders if unseen), resolve the status effects active
on attacker and target, then fire the aggregator damage event. -/
def skill_damage_step (now : Int) (owner : Entity) (sourceId localCharacterId : Nat)
    (skillId skillEffectId : Nat) (acc : LoopState) (ev : SkillDamageEvent) : LoopState :=
  let tgt := acc.entityTracker.get_or_create_entity ev.target_id
  let src := tgt.2.get_or_create_entity sourceId
  let ses := acc.statusTracker.get_status_effects acc.partyTracker owner tgt.1 localCharacterId
  let st2 := acc.state.on_damage now owner src.1 tgt.1 ev.damage (Int.ofNat skillId)
      (Int.ofNat skillEffectId) ev.modifier ev.cur_hp ev.max_hp ses.1 ses.2
  { acc with entityTracker := src.2, state := st2 }

/-- The opcode routing table of the dispatch loop — the big `match op` of
`start` in `mod.rs`, arm for arm.  `some` is the loop state after the matched
arm ran; `none` renders the `continue` taken by the wildcard arm for opcodes
outside the table.  Arms whose decode fails leave the state unchanged (the
`if let Some(pkt)` guard). -/
def handle (now : Int) (pkt : Packet) (s : LoopState) : Option LoopState :=
  match pkt with
  | Packet.counterAttackNotify r =>
    some (match parse_pkt r with
      | some p =>
        (match alookup p.source_id s.entityTracker.entities with
         | some entity => { s with state := s.state.on_counterattack entity }
         | none => s)
      | none => s)
  | Packet.deathNotify r =>
    some (match parse_pkt r with
      | some p =>
        (match alookup p.target_id s.entityTracker.entities with
         | some entity => { s with state := s.state.on_death entity }
         | none => s)
      | none => s)
  | Packet.identityGaugeChangeNotify r =>
    some (match parse_pkt r with
      | some p => { s with state := s.state.on_identity_gain p }
      | none => s)
  | Packet.initEnv r =>
    some (match parse_pkt r with
      | some p =>
        let er := s.entityTracker.init_env p
        { s with entityTracker := er.2, state := s.state.on_init_env er.1 }
      | none => s)
  | Packet.initPC r =>
    some (match parse_pkt r with
      | some p =>
        let hps := get_current_and_max_hp p.stat_pair
        let er := s.entityTracker.init_pc s.idTracker p
        { s with entityTracker := er.2.1, idTracker := er.2.2,
                 state := s.state.on_init_pc er.1 hps.1 hps.2 }
      | none => s)
  | Packet.migrationExecute r =>
    some (match parse_pkt r with
      | some p => { s with entityTracker := s.entityTracker.migration_execute p }
      | none => s)
  | Packet.newPC r =>
    some (match parse_pkt r with
      | some p =>
        let hps := get_current_and_max_hp p.pc_struct.stat_pair
        let er := s.entityTracker.new_pc s.idTracker p
        { s with entityTracker := er.2.1, idTracker := er.2.2,
                 state := s.state.on_new_pc er.1 hps.1 hps.2 }
      | none => s)
  | Packet.newNpc r =>
    some (match parse_pkt r with
      | some p =>
        let hps := get_current_and_max_hp p.npc_struct.stat_pair
        let er := s.entityTracker.new_npc p hps.2
        { s with entityTracker := er.2, state := s.state.on_new_npc er.1 hps.1 hps.2 }
      | none => s)
  | Packet.newNpcSummon r =>
    some (match parse_pkt r with
      | some p =>
        let hps := get_current_and_max_hp p.npc_data.stat_pair
        let er := s.entityTracker.new_npc_summon p hps.2
        { s with entityTracker := er.2, state := s.state.on_new_npc er.1 hps.1 hps.2 }
      | none => s)
  | Packet.newProjectile r =>
    some (match parse_pkt r with
      | some p => { s with entityTracker := s.entityTracker.new_projectile p }
      | none => s)
  | Packet.paralyzationStateNotify r =>
    some (match parse_pkt r with
      | some p => { s with state := s.state.on_stagger_change p }
      | none => s)
  | Packet.partyInfo r =>
    some (match parse_pkt r with
      | some p =>
        let pt := EntityTracker.party_info s.entityTracker s.partyTracker p
        let s2 := { s with partyTracker := pt }
        (match alookup s2.entityTracker.localPlayerId s2.entityTracker.entities with
         | some entity => { s2 with state := s2.state.update_local_player entity }
         | none => s2)
      | none => s)
  | Packet.partyLeaveResult r =>
    some (match parse_pkt r with
      | some p => { s with partyTracker := s.partyTracker.remove p.party_instance_id p.name }
      | none => s)
  | Packet.partyStatusEffectAddNotify r =>
    some (match parse_pkt r with
      | some p => { s with statusTracker := party_status_effect_add s.statusTracker p }
      | none => s)
  | Packet.partyStatusEffectRemoveNotify r =>
    some (match parse_pkt r with
      | some p => { s with statusTracker := party_status_effect_remove s.statusTracker p }
      | none => s)
  | Packet.partyStatusEffectResultNotify r =>
    some (match parse_pkt r with
      | some p =>
        { s with partyTracker :=
            (s.partyTracker.add p.raid_instance_id p.party_instance_id p.character_id 0 none) }
      | none => s)
  | Packet.raidBossKillNotify =>
    let st2 := s.state.on_phase_transition 1
    some { s with state := { st2 with raidClear := true } }
  | Packet.raidResult =>
    some { s with state := s.state.on_phase_transition 0 }
  | Packet.removeObject r =>
    some (match parse_pkt r with
      | some p =>
        { s with statusTracker :=
            (p.unpublished_objects.foldl
              (fun acc upo => acc.remove_local_object upo.object_id) s.statusTracker) }
      | none => s)
  | Packet.skillCastNotify => some s
  | Packet.skillStartNotify r =>
    some (match parse_pkt r with
      | some p =>
        let r1 := s.entityTracker.get_source_entity p.source_id
        let r2 := r1.2.guess_is_player s.playerSkills r1.1 p.skill_id
        let st2 := s.state.on_skill_start r2.1 (Int.ofNat p.skill_id) now
        { s with entityTracker := r2.2, state := st2 }
      | none => s)
  | Packet.skillStageNotify => some s
  | Packet.skillDamageAbnormalMoveNotify r =>
    some (match parse_pkt r with
      | some p =>
        let ownerR := s.entityTracker.get_source_entity p.source_id
        let localCharacterId := s.idTracker.get_local_character_id ownerR.2.localPlayerId
        p.skill_damage_abnormal_move_events.foldl
          (fun acc ev =>
            skill_damage_step now ownerR.1 p.source_id localCharacterId p.skill_id
              p.skill_effect_id acc ev.skill_damage_event)
          { s with entityTracker := ownerR.2 }
      | none => s)
  | Packet.skillDamageNotify r =>
    some (match parse_pkt r with
      | some p =>
        let ownerR := s.entityTracker.get_source_entity p.source_id
        let localCharacterId := s.idTracker.get_local_character_id ownerR.2.localPlayerId
        p.skill_damage_events.foldl
          (fun acc ev =>
            skill_damage_step now ownerR.1 p.source_id localCharacterId p.skill_id
              p.skill_effect_id acc ev)
          { s with entityTracker := ownerR.2 }
      | none => s)
  | Packet.statusEffectAddNotify r =>
    some (match parse_pkt r with
      | some p =>
        { s with statusTracker :=
            (build_and_register_status_effect s.statusTracker p.status_effect_data p.object_id) }
      | none => s)
  | Packet.statusEffectDurationNotify r =>
    some (match parse_pkt r with
      | some p =>
        { s with statusTracker :=
            (s.statusTracker.update_status_duration p.effect_instance_id p.target_id
              p.expiration_tick StatusEffectTargetType.Local) }
      | none => s)
  | Packet.statusEffectRemoveNotify r =>
    some (match parse_pkt r with
      | some p =>
        { s with statusTracker :=
            (s.statusTracker.remove_status_effects p.object_id p.status_effect_ids
              StatusEffectTargetType.Local) }
      | none => s)
  | Packet.triggerBossBattleStatus =>
    if s.state.encounter.fightStart == 0 || s.state.encounter.currentBossName.isEmpty then
      some { s with state := s.state.on_phase_transition 3 }
    else
      some { s with state := s.state.on_phase_transition 2 }
  | Packet.triggerStartNotify r =>
    some (match parse_pkt r with
      | some p =>
        if [57, 59, 61, 63, 74, 76].contains p.trigger_signal_type then
          { s with state := { s.state with raidClear := true } }
        else if [58, 60, 62, 64, 75, 77].contains p.trigger_signal_type then
          { s with state := { s.state with raidClear := false } }
        else s
      | none => s)
  | Packet.zoneObjectUnpublishNotify r =>
    some (match parse_pkt r with
      | some p => { s with statusTracker := s.statusTracker.remove_local_object p.object_id }
      | none => s)
  | Packet.statusEffectSyncDataNotify => some s
  | Packet.troopMemberUpdateMinNotify => some s
  | Packet.unmatched => none

/-- The first half of the snapshot-publication task (the dispatch loop's
spawn block, acting on a value copy of the snapshot): resolve the current
boss by name, marking it dead with zero HP when a boss-death edge fired this
cycle, and clearing the boss name when it no longer resolves. -/
def resolve_boss (bossDead : Bool) (enc0 : Encounter) : Encounter :=
  if !enc0.currentBossName.isEmpty then
    match alookup enc0.currentBossName enc0.entities with
    | some cb =>
      let cb2 := if bossDead then { cb with isDead := true, currentHp := 0 } else cb
      { enc0 with currentBoss := some cb2 }
    | none => { enc0 with currentBossName := "" }
  else enc0

/-- The publication filter of the spawn block: keep only Player and Esther
entities with strictly positive cumulative damage dealt. -/
def publish_filter (kv : String × EncounterEntity) : Bool :=
  (kv.2.entityType == EntityType.Player || kv.2.entityType == EntityType.Esther)
    && decide (0 < kv.2.damageStats.damageDealt)

/-- The end of the spawn block: filter the resolved snapshot's entity map and
emit it only when at least one entity remains. -/
def publish_snapshot (bossDead : Bool) (enc0 : Encounter) : Option Encounter :=
  let enc1 := resolve_boss bossDead enc0
  let enc2 := { enc1 with entities := enc1.entities.filter publish_filter }
  if enc2.entities.isEmpty then none else some enc2

/-- The observable outcome of one dispatch iteration: the loop state, the
reset signal after the iteration (the store that clears it), whether the
publish branch fired, and the snapshot it emitted (`none` when the branch did
not fire or the filtered snapshot was empty and therefore dropped). -/
structure StepResult where
  st : LoopState
  resetSignal : Bool
  publishFired : Bool
  published : Option Encounter
deriving DecidableEq

/-- One iteration of the dispatch loop for a received (opcode, payload) item:
poll the reset signal (soft reset of the aggregator, clear the signal), poll
the pause signal (discard the packet unprocessed), route through the opcode
table, then the publish decision — fire when at least 100ms elapsed since the
last publish, or the raid-end flag is set, or a boss-death edge fired — and
finally the after-publication rollover when the encounter has ended.
`elapsedMs` renders `last_update.elapsed()` and `now` the wall clock, both
inputs of the iteration. -/
def dispatch_iter (resetSignal pauseSignal : Bool) (elapsedMs : Nat) (now : Int)
    (pkt : Packet) (s0 : LoopState) : StepResult :=
  let s1 := if resetSignal then { s0 with state := s0.state.soft_reset true } else s0
  if pauseSignal then { st := s1, resetSignal := false, publishFired := false, published := none }
  else
    match handle now pkt s1 with
    | none => { st := s1, resetSignal := false, publishFired := false, published := none }
    | some s2 =>
      let fire := decide (100 ≤ elapsedMs) || s2.state.raidEnd || s2.state.bossDeadUpdate
      let bossDead := s2.state.bossDeadUpdate
      let s3 := if fire && bossDead then { s2 with state := { s2.state with bossDeadUpdate := false } }
        else s2
      let pub := if fire then publish_snapshot bossDead s3.state.encounter else none
      let s4 := if s3.state.raidEnd then
          { s3 with state := { s3.state.soft_reset true with raidEnd := false, saved := false } }
        else s3
      { st := s4, resetSignal := false, publishFired := fire, published := pub }

/-- Runs the dispatch loop over a list of (elapsed, now, packet) inputs with
the pause signal set and the reset signal clear. -/
def dispatch_paused_run (inputs : List (Nat × Int × Packet)) (s : LoopState) : LoopState :=
  inputs.foldl (fun acc i => (dispatch_iter false true i.1 i.2.1 i.2.2 acc).st) s

/-- A nonempty pre-reset entity tracker used by the C1 counterexample. -/
def c1PreTracker : EntityTracker :=
  { entities := [(7, { id := 7, entityType := EntityType.Player, name := "alice" })],
    localPlayerId := 7 }

/-- The literal reading of claim C2: Starting (3) exactly when both the
fight-start timestamp is unset and no current boss name is recorded,
Ongoing (2) in every other case. -/
def c2ClaimStatement : Prop :=
  ∀ (s t : LoopState), handle 0 Packet.triggerBossBattleStatus s = some t →
    (t.state.phase = 3
      ↔ s.state.encounter.fightStart = 0 ∧ s.state.encounter.currentBossName = "")

/-- The literal reading of claim C3: the publish decision is evaluated after
every packet, including those whose opcode is outside the routing table, and
fires exactly on the elapsed-time / raid-end / boss-death condition. -/
def c3ClaimStatement : Prop :=
  ∀ (e : Nat) (now : Int) (pkt : Packet) (s : LoopState),
    (dispatch_iter false false e now pkt s).publishFired
      = (decide (100 ≤ e) || ((handle now pkt s).getD s).state.raidEnd
          || ((handle now pkt s).getD s).state.bossDeadUpdate)

/-- A fixed decode-error message used by concrete decode-failure inputs. -/
def decodeFailMsg : String := "malformed packet"

/-- A loop state holding one player with positive damage, used to exercise a
successful publication. -/
def c4State : LoopState :=
  { state := { encounter := { entities := [("alice",
      { name := "alice", entityType := EntityType.Player,
        damageStats := { damageDealt := 50 } })] } } }

/-- The snapshot that publishing `c4State` emits. -/
def c4Snapshot : Encounter :=
  { entities := [("alice",
      { name := "alice", entityType := EntityType.Player,
        damageStats := { damageDealt := 50 } })] }

/-- An unpublish packet listing object id 5, used by the C8 scenarios. -/
def c8Pkt : PKTRemoveObject := { unpublished_objects := [{ object_id := 5 }] }

/-- A loop state tracking entity 5 with two locally scoped status effects, one
referencing object 5 and one referencing object 9. -/
def c8State : LoopState :=
  { entityTracker := { entities := [(5, { id := 5, entityType := EntityType.Npc, name := "m" })] },
    statusTracker := { effects := [{ instanceId := 1, sourceId := 2, targetId := 5 },
                                   { instanceId := 2, sourceId := 3, targetId := 9 }] } }

/-- A damage notification from unseen source 41 onto unseen target 42, used
to exercise the get-or-create fallback. -/
def c9Pkt : PKTSkillDamageNotify :=
  { source_id := 41, skill_damage_events := [{ target_id := 42 }] }

/-!
Claim theorems.  Each claim of the specification is settled against the
embedding above; corrected claims come with a closed counterexample plus the
amended statement.
-/

/-- Claim C5 (confirmed): while the pause signal is set, every incoming packet
is discarded unprocessed — no tracker or aggregator state is mutated and no
publication occurs, over any number of consecutive paused packets — while the
reset control signal is still observed and acted on at the top of the
iteration, before the pause check. -/
theorem c5_pause_discards_unprocessed :
    (∀ (rs : Bool) (e : Nat) (now : Int) (pkt : Packet) (s : LoopState),
      (dispatch_iter rs true e now pkt s).st
          = (if rs then { s with state := s.state.soft_reset true } else s)
        ∧ (dispatch_iter rs true e now pkt s).published = none
        ∧ (dispatch_iter rs true e now pkt s).publishFired = false
        ∧ (dispatch_iter rs true e now pkt s).resetSignal = false)
    ∧ (∀ (inputs : List (Nat × Int × Packet)) (s : LoopState),
        dispatch_paused_run inputs s = s) := by
  constructor
  · intro rs e now pkt s
    cases rs <;> simp [dispatch_iter]
  · intro inputs s
    induction inputs generalizing s with
    | nil => rfl
    | cons i rest ih =>
      have h1 : (dispatch_iter false true i.1 i.2.1 i.2.2 s).st = s := by
        simp [dispatch_iter]
      calc dispatch_paused_run (i :: rest) s
          = dispatch_paused_run rest (dispatch_iter false true i.1 i.2.1 i.2.2 s).st := by
            simp [dispatch_paused_run]
        _ = s := by rw [h1]; exact ih s

/-- Claim C1 (corrected): when the reset signal is observed set, the iteration
soft-resets the Encounter Aggregator — entity map emptied, phase and all
flags cleared — and clears the signal, and the remainder of the iteration
behaves exactly as one started from the reset aggregator, so pre-reset
aggregator content cannot reach any later snapshot; the identity, entity,
party and status trackers are not reset (see the counterexample). -/
theorem c1_reset_soft_resets_aggregator :
    ∀ (ps : Bool) (e : Nat) (now : Int) (pkt : Packet) (s : LoopState),
      dispatch_iter true ps e now pkt s
          = dispatch_iter false ps e now pkt { s with state := s.state.soft_reset true }
        ∧ (s.state.soft_reset true).encounter = ({} : Encounter)
        ∧ (s.state.soft_reset true).phase = 0
        ∧ (s.state.soft_reset true).raidClear = false
        ∧ (s.state.soft_reset true).raidEnd = false
        ∧ (s.state.soft_reset true).bossDeadUpdate = false
        ∧ (s.state.soft_reset true).saved = false
        ∧ (dispatch_iter true ps e now pkt s).resetSignal = false := by
  intro ps e now pkt s
  refine ⟨rfl, rfl, rfl, rfl, rfl, rfl, rfl, ?_⟩
  cases ps
  · cases h : handle now pkt { s with state := s.state.soft_reset true } <;>
      simp [dispatch_iter, h]
  · simp [dispatch_iter]

/-- Claim C1, counterexample: a reset-observed iteration leaves the entity
tracker exactly as it was — nonempty, holding entity 7 — so the claimed "full
soft reset of all trackers (identity, entity, party, status-effect) back to
their initial state" does not happen; only the aggregator is reset. -/
theorem c1_trackers_not_reset :
    (dispatch_iter true false 0 0 Packet.skillCastNotify { entityTracker := c1PreTracker }).st.entityTracker = c1PreTracker
    ∧ (dispatch_iter true false 0 0 Packet.skillCastNotify { entityTracker := c1PreTracker }).st.entityTracker ≠ ({} : EntityTracker) := by
  constructor
  · decide
  · decide

/-- Claim C2 (corrected): the boss-battle-status trigger sets the phase to
Starting (3) whenever the fight-start timestamp is unset OR no current boss
name is recorded — the source condition is a disjunction — and to Ongoing (2)
only when the fight has started AND a boss name is known. -/
theorem c2_phase_transition_amended :
    ∀ s : LoopState,
      (handle 0 Packet.triggerBossBattleStatus s).map (fun t => t.state.phase)
        = some (if s.state.encounter.fightStart == 0
                  || s.state.encounter.currentBossName.isEmpty then 3 else 2) := by
  intro s
  simp only [handle]
  split <;> simp_all [EncounterState.on_phase_transition]

/-- Claim C2, counterexample: with the fight started (timestamp 5) but no boss
name recorded, the handler yields phase Starting (3) although the claim
demands Ongoing (2) — the source tests a disjunction, not a conjunction. -/
theorem c2_counterexample : ¬ c2ClaimStatement := by
  intro h
  have h2 := h { state := { encounter := { fightStart := 5 } } }
      { state := { encounter := { fightStart := 5 }, phase := 3 } } (by decide)
  exact absurd (h2.mp rfl).1 (by decide)

/-- Claim C3 (corrected): after a packet whose opcode is in the routing table
is handled (empty handlers included), the publish decision fires exactly when
at least 100ms elapsed since the last publish, or the raid-end flag is set,
or a boss-death edge fired this iteration; a packet whose opcode is outside
the routing table takes the wildcard `continue` and skips the publish
decision entirely. -/
theorem c3_publish_decision_amended :
    ∀ (e : Nat) (now : Int) (pkt : Packet) (s : LoopState),
      (dispatch_iter false false e now pkt s).publishFired
        = (match handle now pkt s with
           | some s2 => decide (100 ≤ e) || s2.state.raidEnd || s2.state.bossDeadUpdate
           | none => false) := by
  intro e now pkt s
  cases h : handle now pkt s <;> simp [dispatch_iter, h]

/-- Claim C3, counterexample: an unmatched opcode with 200ms elapsed — the
claim demands a publication, but the wildcard arm `continue`s before the
publish decision and nothing fires. -/
theorem c3_counterexample : ¬ c3ClaimStatement := by
  intro h
  exact absurd (h 200 0 Packet.unmatched {}) (by decide)

/-- Claim C7 (confirmed): a trigger-start packet with a signal code in
{57, 59, 61, 63, 74, 76} sets the raid-clear flag, a code in
{58, 60, 62, 64, 75, 77} clears it, and any other code changes nothing at
all. -/
theorem c7_trigger_signal_sets :
    ∀ (c : Nat) (s : LoopState),
      handle 0 (Packet.triggerStartNotify (Except.ok { trigger_signal_type := c })) s
        = some (if [57, 59, 61, 63, 74, 76].contains c then
                  { s with state := { s.state with raidClear := true } }
                else if [58, 60, 62, 64, 75, 77].contains c then
                  { s with state := { s.state with raidClear := false } }
                else s) := by
  intro c s
  rfl

/-- Claim C10 (confirmed): the raid-boss-kill handler performs the phase
transition to Cleared (1) and sets the raid-clear flag in the same arm, so
the Cleared transition never occurs via this opcode without raid-clear also
being set. -/
theorem c10_boss_kill_sets_clear :
    ∀ s : LoopState,
      (handle 0 Packet.raidBossKillNotify s).map (fun t => (t.state.phase, t.state.raidClear))
        = some (1, true) := by
  intro s
  rfl

/-- Claim C6 (confirmed): a packet whose opcode-specific decode fails is
discarded as a single packet — the handler arm does nothing, so the trackers
and the aggregator after the iteration equal their state before the packet
(the raid-end and boss-dead-update flags are clear at the top of every
iteration, see the preservation arguments in the dispatch model), and the
loop simply continues. -/
theorem c6_decode_failure_atomic :
    ∀ (e : Nat) (now : Int) (pkt : Packet) (s : LoopState),
      pkt.decodeFailed = true → s.state.raidEnd = false → s.state.bossDeadUpdate = false →
      (dispatch_iter false false e now pkt s).st = s := by
  intro e now pkt s hf hre hbd
  cases pkt <;> try (rename_i r; cases r)
  all_goals
    first
      | (simp [dispatch_iter, handle, parse_pkt, hre, hbd]; done)
      | simp [Packet.decodeFailed] at hf

/-- Claim C6, witness: a concrete malformed death-notification against the
initial loop state is dropped with the whole state unchanged. -/
theorem c6_decode_failure_atomic_witness :
    (Packet.deathNotify (Except.error decodeFailMsg)).decodeFailed = true
    ∧ ({} : LoopState).state.raidEnd = false
    ∧ ({} : LoopState).state.bossDeadUpdate = false
    ∧ (dispatch_iter false false 0 0 (Packet.deathNotify (Except.error decodeFailMsg)) {}).st
        = ({} : LoopState) :=
  ⟨by decide, by decide, by decide,
   c6_decode_failure_atomic 0 0 (Packet.deathNotify (Except.error decodeFailMsg)) {}
     (by decide) (by decide) (by decide)⟩

/-- Soundness of the publication filter: an emitted snapshot is nonempty and
every remaining entity is a Player or Esther with positive damage dealt. -/
theorem publish_snapshot_sound :
    ∀ (b : Bool) (enc0 enc : Encounter), publish_snapshot b enc0 = some enc →
      enc.entities ≠ []
      ∧ ∀ kv ∈ enc.entities,
          (kv.2.entityType = EntityType.Player ∨ kv.2.entityType = EntityType.Esther)
          ∧ 0 < kv.2.damageStats.damageDealt := by
  intro b enc0 enc h
  simp only [publish_snapshot] at h
  split at h
  · exact absurd h (by simp)
  · rename_i hne
    injection h with h
    subst h
    constructor
    · intro hnil
      have hnil2 : List.filter publish_filter (resolve_boss b enc0).entities = [] := hnil
      rw [hnil2] at hne
      exact hne rfl
    · intro kv hkv
      have h2 := List.mem_filter.mp hkv
      have h3 := h2.2
      simp only [publish_filter, Bool.and_eq_true, Bool.or_eq_true, beq_iff_eq,
        decide_eq_true_eq] at h3
      exact ⟨h3.1, h3.2⟩

/-- A reset-observed iteration equals an unreset iteration started from the
soft-reset aggregator (the reset poll runs before everything else). -/
theorem dispatch_iter_reset_shift :
    ∀ (ps : Bool) (e : Nat) (now : Int) (pkt : Packet) (s : LoopState),
      dispatch_iter true ps e now pkt s
        = dispatch_iter false ps e now pkt { s with state := s.state.soft_reset true } := by
  intro ps e now pkt s
  rfl

/-- Whatever the dispatch loop publishes came out of `publish_snapshot`. -/
theorem dispatch_published_of_some :
    ∀ (e : Nat) (now : Int) (pkt : Packet) (s : LoopState) (enc : Encounter),
      (dispatch_iter false false e now pkt s).published = some enc →
      ∃ (b : Bool) (enc0 : Encounter), publish_snapshot b enc0 = some enc := by
  intro e now pkt s enc h
  cases hh : handle now pkt s with
  | none => simp [dispatch_iter, hh] at h
  | some s2 =>
    rcases Bool.eq_false_or_eq_true s2.state.raidEnd with h1 | h1 <;>
      rcases Bool.eq_false_or_eq_true s2.state.bossDeadUpdate with h2 | h2 <;>
        rcases Bool.eq_false_or_eq_true (decide (100 ≤ e)) with h3 | h3 <;>
          simp [dispatch_iter, hh, h1, h2, h3] at h <;>
            exact ⟨_, _, h⟩

/-- Claim C4 (confirmed): every published encounter-update snapshot contains
only entities whose type is Player or Esther with strictly positive cumulative
damage dealt, and a snapshot whose entity map is empty after filtering is
dropped, never emitted. -/
theorem c4_published_snapshot_filtered :
    ∀ (rs ps : Bool) (e : Nat) (now : Int) (pkt : Packet) (s : LoopState) (enc : Encounter),
      (dispatch_iter rs ps e now pkt s).published = some enc →
        enc.entities ≠ []
        ∧ ∀ kv ∈ enc.entities,
            (kv.2.entityType = EntityType.Player ∨ kv.2.entityType = EntityType.Esther)
            ∧ 0 < kv.2.damageStats.damageDealt := by
  intro rs ps e now pkt s enc h
  cases ps with
  | true =>
    have hnone : (dispatch_iter rs true e now pkt s).published = none := by
      cases rs <;> simp [dispatch_iter]
    rw [hnone] at h
    exact absurd h (by simp)
  | false =>
    cases rs with
    | false =>
      obtain ⟨b, enc0, hp⟩ := dispatch_published_of_some e now pkt s enc h
      exact publish_snapshot_sound b enc0 enc hp
    | true =>
      rw [dispatch_iter_reset_shift] at h
      obtain ⟨b, enc0, hp⟩ := dispatch_published_of_some e now pkt _ enc h
      exact publish_snapshot_sound b enc0 enc hp

/-- Claim C4, witness: a concrete iteration with 100ms elapsed publishes the
one-player snapshot, which the theorem certifies as filtered and nonempty. -/
theorem c4_published_snapshot_filtered_witness :
    (dispatch_iter false false 100 0 Packet.skillCastNotify c4State).published = some c4Snapshot
    ∧ (c4Snapshot.entities ≠ []
       ∧ ∀ kv ∈ c4Snapshot.entities,
          (kv.2.entityType = EntityType.Player ∨ kv.2.entityType = EntityType.Esther)
          ∧ 0 < kv.2.damageStats.damageDealt) :=
  ⟨by decide,
   c4_published_snapshot_filtered false false 100 0 Packet.skillCastNotify c4State c4Snapshot
     (by decide)⟩

/-- The post-handler machinery of an iteration (boss-dead clearing, publish,
raid-end rollover) touches only the aggregator: every tracker of the state
produced by the routing table survives to the end of the iteration. -/
theorem dispatch_iter_trackers :
    ∀ (e : Nat) (now : Int) (pkt : Packet) (s s2 : LoopState),
      handle now pkt s = some s2 →
      (dispatch_iter false false e now pkt s).st.idTracker = s2.idTracker
      ∧ (dispatch_iter false false e now pkt s).st.partyTracker = s2.partyTracker
      ∧ (dispatch_iter false false e now pkt s).st.statusTracker = s2.statusTracker
      ∧ (dispatch_iter false false e now pkt s).st.entityTracker = s2.entityTracker := by
  intro e now pkt s s2 hh
  rcases Bool.eq_false_or_eq_true s2.state.raidEnd with h1 | h1 <;>
    rcases Bool.eq_false_or_eq_true s2.state.bossDeadUpdate with h2 | h2 <;>
      rcases Bool.eq_false_or_eq_true (decide (100 ≤ e)) with h3 | h3 <;>
        simp [dispatch_iter, hh, h1, h2, h3]

/-- A record surviving the implicit-removal pass was there before and, when
locally scoped, references neither the removed target nor the removed
source. -/
theorem mem_remove_local_object :
    ∀ (st : StatusTracker) (objectId : Nat) (eff : StatusEffectDetails),
      eff ∈ (st.remove_local_object objectId).effects →
      eff ∈ st.effects
      ∧ (eff.targetType = StatusEffectTargetType.Local →
          eff.targetId ≠ objectId ∧ eff.sourceId ≠ objectId) := by
  intro st objectId eff h
  simp only [StatusTracker.remove_local_object] at h
  have h2 := List.mem_filter.mp h
  refine ⟨h2.1, ?_⟩
  intro ht
  have h3 := h2.2
  simp [ht, not_or] at h3
  exact h3

/-- A record surviving the fold of implicit removals over an unpublish list
references none of the listed object ids (when locally scoped). -/
theorem mem_foldl_remove :
    ∀ (l : List UnpublishedObject) (st : StatusTracker) (eff : StatusEffectDetails),
      eff ∈ (l.foldl (fun acc upo => acc.remove_local_object upo.object_id) st).effects →
      eff ∈ st.effects
      ∧ ∀ upo ∈ l, eff.targetType = StatusEffectTargetType.Local →
          eff.targetId ≠ upo.object_id ∧ eff.sourceId ≠ upo.object_id := by
  intro l
  induction l with
  | nil =>
    intro st eff h
    exact ⟨h, by intro upo hu; cases hu⟩
  | cons u rest ih =>
    intro st eff h
    rw [List.foldl_cons] at h
    obtain ⟨h1, h2⟩ := ih _ eff h
    obtain ⟨h3, h4⟩ := mem_remove_local_object st u.object_id eff h1
    refine ⟨h3, ?_⟩
    intro upo hu ht
    cases hu with
    | head => exact h4 ht
    | tail _ hu2 => exact h2 upo hu2 ht

/-- Claim C8 (corrected): an object-unpublish packet (and likewise a
zone-object-unpublish packet) routes every listed object id through the
status tracker's implicit-removal path — after the iteration no surviving
locally scoped effect references a listed id — but the entities themselves
are not destroyed: the entity tracker's live map is left exactly as it was
(see the counterexample). -/
theorem c8_unpublish_amended :
    (∀ (e : Nat) (now : Int) (p : PKTRemoveObject) (s : LoopState),
      (dispatch_iter false false e now (Packet.removeObject (Except.ok p)) s).st.entityTracker
          = s.entityTracker
      ∧ ∀ upo ∈ p.unpublished_objects,
          ∀ eff ∈ (dispatch_iter false false e now
              (Packet.removeObject (Except.ok p)) s).st.statusTracker.effects,
            eff.targetType = StatusEffectTargetType.Local →
              eff.targetId ≠ upo.object_id ∧ eff.sourceId ≠ upo.object_id)
    ∧ (∀ (e : Nat) (now : Int) (p : PKTZoneObjectUnpublishNotify) (s : LoopState),
      (dispatch_iter false false e now
          (Packet.zoneObjectUnpublishNotify (Except.ok p)) s).st.entityTracker
          = s.entityTracker
      ∧ ∀ eff ∈ (dispatch_iter false false e now
              (Packet.zoneObjectUnpublishNotify (Except.ok p)) s).st.statusTracker.effects,
            eff.targetType = StatusEffectTargetType.Local →
              eff.targetId ≠ p.object_id ∧ eff.sourceId ≠ p.object_id) := by
  constructor
  · intro e now p s
    have hh : handle now (Packet.removeObject (Except.ok p)) s
        = some { s with statusTracker :=
            (p.unpublished_objects.foldl (fun acc upo => acc.remove_local_object upo.object_id)
              s.statusTracker) } := rfl
    obtain ⟨hid, hparty, hstatus, hentity⟩ :=
      dispatch_iter_trackers e now (Packet.removeObject (Except.ok p)) s _ hh
    constructor
    · exact hentity
    · intro upo hu eff he ht
      rw [hstatus] at he
      have he2 : eff ∈ (p.unpublished_objects.foldl
          (fun acc upo => acc.remove_local_object upo.object_id) s.statusTracker).effects := he
      exact (mem_foldl_remove p.unpublished_objects s.statusTracker eff he2).2 upo hu ht
  · intro e now p s
    have hh : handle now (Packet.zoneObjectUnpublishNotify (Except.ok p)) s
        = some { s with statusTracker := s.statusTracker.remove_local_object p.object_id } := rfl
    obtain ⟨hid, hparty, hstatus, hentity⟩ :=
      dispatch_iter_trackers e now (Packet.zoneObjectUnpublishNotify (Except.ok p)) s _ hh
    constructor
    · exact hentity
    · intro eff he ht
      rw [hstatus] at he
      have he2 : eff ∈ (s.statusTracker.remove_local_object p.object_id).effects := he
      exact (mem_remove_local_object s.statusTracker p.object_id eff he2).2 ht

/-- Claim C8, counterexample: after unpublishing object 5, entity 5 is still
present in the entity tracker's live map — the claimed removal of the entity
from the live entity map does not happen; only its status effects go. -/
theorem c8_entity_not_removed :
    alookup 5 (dispatch_iter false false 0 0
        (Packet.removeObject (Except.ok c8Pkt)) c8State).st.entityTracker.entities
      = some { id := 5, entityType := EntityType.Npc, name := "m" } := by
  decide

/-- Claim C8, witness: the concrete unpublish of object 5 keeps the entity map
intact, and the surviving local effect (on object 9) references neither the
removed target nor the removed source. -/
theorem c8_unpublish_amended_witness :
    ({ object_id := 5 } : UnpublishedObject) ∈ c8Pkt.unpublished_objects
    ∧ ({ instanceId := 2, sourceId := 3, targetId := 9 } : StatusEffectDetails)
        ∈ (dispatch_iter false false 0 0
            (Packet.removeObject (Except.ok c8Pkt)) c8State).st.statusTracker.effects
    ∧ (dispatch_iter false false 0 0
        (Packet.removeObject (Except.ok c8Pkt)) c8State).st.entityTracker = c8State.entityTracker
    ∧ ({ instanceId := 2, sourceId := 3, targetId := 9 } : StatusEffectDetails)
        ∈ (dispatch_iter false false 0 0
            (Packet.zoneObjectUnpublishNotify (Except.ok { object_id := 5 }))
            c8State).st.statusTracker.effects
    ∧ (dispatch_iter false false 0 0
        (Packet.zoneObjectUnpublishNotify (Except.ok { object_id := 5 }))
        c8State).st.entityTracker = c8State.entityTracker
    ∧ (9 : Nat) ≠ 5 ∧ (3 : Nat) ≠ 5 := by
  refine ⟨by decide, by decide, (c8_unpublish_amended.1 0 0 c8Pkt c8State).1, by decide,
    (c8_unpublish_amended.2 0 0 { object_id := 5 } c8State).1, ?_, ?_⟩
  · exact ((c8_unpublish_amended.1 0 0 c8Pkt c8State).2 { object_id := 5 } (by decide)
      { instanceId := 2, sourceId := 3, targetId := 9 } (by decide) rfl).1
  · exact ((c8_unpublish_amended.2 0 0 { object_id := 5 } c8State).2
      { instanceId := 2, sourceId := 3, targetId := 9 } (by decide) rfl).2

theorem alookup_aupsert_self {α β : Type} [BEq α] [LawfulBEq α] (k : α) (v : β) :
    ∀ l : List (α × β), alookup k (aupsert k v l) = some v := by
  intro l
  induction l with
  | nil => simp [aupsert, alookup]
  | cons kv rest ih =>
    rcases Bool.eq_false_or_eq_true (kv.1 == k) with h | h <;>
      simp [aupsert, alookup, h, ih]

theorem alookup_aupsert_isSome {α β : Type} [BEq α] [LawfulBEq α] (k k2 : α) (v : β) :
    ∀ l : List (α × β),
      (alookup k l).isSome = true → (alookup k (aupsert k2 v l)).isSome = true := by
  intro l
  induction l with
  | nil => intro h; simp [alookup] at h
  | cons kv rest ih =>
    intro h
    rcases Bool.eq_false_or_eq_true (kv.1 == k) with h1 | h1
    · rcases Bool.eq_false_or_eq_true (kv.1 == k2) with h2 | h2 <;>
        simp [aupsert, alookup, h1, h2]
    · have hr : (alookup k rest).isSome = true := by simpa [alookup, h1] using h
      rcases Bool.eq_false_or_eq_true (kv.1 == k2) with h2 | h2
      · simpa [aupsert, alookup, h1, h2] using hr
      · simpa [aupsert, alookup, h1, h2] using ih hr

theorem alookup_aupdate_self {α β : Type} [BEq α] [LawfulBEq α] (k : α) (f : β → β) (d : β) :
    ∀ l : List (α × β), (alookup k (aupdate k f d l)).isSome = true := by
  intro l
  induction l with
  | nil => simp [aupdate, alookup]
  | cons kv rest ih =>
    rcases Bool.eq_false_or_eq_true (kv.1 == k) with h | h <;>
      simp [aupdate, alookup, h, ih]

theorem alookup_aupdate_isSome {α β : Type} [BEq α] [LawfulBEq α] (k k2 : α) (f : β → β) (d : β) :
    ∀ l : List (α × β),
      (alookup k l).isSome = true → (alookup k (aupdate k2 f d l)).isSome = true := by
  intro l
  induction l with
  | nil => intro h; simp [alookup] at h
  | cons kv rest ih =>
    intro h
    rcases Bool.eq_false_or_eq_true (kv.1 == k) with h1 | h1
    · rcases Bool.eq_false_or_eq_true (kv.1 == k2) with h2 | h2 <;>
        simp [aupdate, alookup, h1, h2]
    · have hr : (alookup k rest).isSome = true := by simpa [alookup, h1] using h
      rcases Bool.eq_false_or_eq_true (kv.1 == k2) with h2 | h2
      · simpa [aupdate, alookup, h1, h2] using hr
      · simpa [aupdate, alookup, h1, h2] using ih hr

theorem get_or_create_isSome_self (t : EntityTracker) (id : Nat) :
    (alookup id (t.get_or_create_entity id).2.entities).isSome = true := by
  cases h : alookup id t.entities with
  | some e => simp [EntityTracker.get_or_create_entity, h]
  | none => simp [EntityTracker.get_or_create_entity, h, alookup_aupsert_self]

theorem get_or_create_isSome_mono (t : EntityTracker) (id k : Nat) :
    (alookup k t.entities).isSome = true →
    (alookup k (t.get_or_create_entity id).2.entities).isSome = true := by
  intro hk
  cases h : alookup id t.entities with
  | some e => simpa [EntityTracker.get_or_create_entity, h] using hk
  | none =>
    simp only [EntityTracker.get_or_create_entity, h]
    exact alookup_aupsert_isSome k id _ t.entities hk

theorem get_source_isSome_self (t : EntityTracker) (id : Nat) :
    (alookup id (t.get_source_entity id).2.entities).isSome = true := by
  cases h : alookup id t.entities with
  | some e =>
    rcases Bool.eq_false_or_eq_true
        ((e.entityType == EntityType.Projectile || e.entityType == EntityType.Summon)
          && e.ownerId != 0) with hb | hb
    · have h2 := get_or_create_isSome_mono t e.ownerId id (by simp [h])
      simpa [EntityTracker.get_source_entity, h, hb] using h2
    · simp [EntityTracker.get_source_entity, h, hb]
  | none =>
    have h2 := get_or_create_isSome_self t id
    simpa [EntityTracker.get_source_entity, h] using h2

theorem get_source_isSome_mono (t : EntityTracker) (id k : Nat) :
    (alookup k t.entities).isSome = true →
    (alookup k (t.get_source_entity id).2.entities).isSome = true := by
  intro hk
  cases h : alookup id t.entities with
  | some e =>
    rcases Bool.eq_false_or_eq_true
        ((e.entityType == EntityType.Projectile || e.entityType == EntityType.Summon)
          && e.ownerId != 0) with hb | hb
    · have h2 := get_or_create_isSome_mono t e.ownerId k hk
      simpa [EntityTracker.get_source_entity, h, hb] using h2
    · simpa [EntityTracker.get_source_entity, h, hb] using hk
  | none =>
    have h2 := get_or_create_isSome_mono t id k hk
    simpa [EntityTracker.get_source_entity, h] using h2

theorem on_damage_entities_mono (s : EncounterState) (now : Int) (owner src tgt : Entity)
    (dmg si sei m ch mh : Int) (l1 l2 : List Nat) (k : String) :
    (alookup k s.encounter.entities).isSome = true →
    (alookup k (s.on_damage now owner src tgt dmg si sei m ch mh l1 l2).encounter.entities).isSome
      = true := by
  intro hk
  rcases Bool.eq_false_or_eq_true (s.encounter.fightStart == 0) with hf | hf <;>
    · simp only [EncounterState.on_damage, hf]
      simp
      exact alookup_aupdate_isSome _ _ _ _ _ (alookup_aupdate_isSome _ _ _ _ _ hk)

theorem on_damage_owner_record (s : EncounterState) (now : Int) (owner src tgt : Entity)
    (dmg si sei m ch mh : Int) (l1 l2 : List Nat) :
    (alookup owner.name
        (s.on_damage now owner src tgt dmg si sei m ch mh l1 l2).encounter.entities).isSome
      = true := by
  rcases Bool.eq_false_or_eq_true (s.encounter.fightStart == 0) with hf | hf <;>
    · simp only [EncounterState.on_damage, hf]
      simp
      exact alookup_aupdate_isSome _ _ _ _ _ (alookup_aupdate_self _ _ _ _)

theorem step_et_mono (now : Int) (owner : Entity) (sid lc si sei : Nat)
    (acc : LoopState) (ev : SkillDamageEvent) (k : Nat) :
    (alookup k acc.entityTracker.entities).isSome = true →
    (alookup k (skill_damage_step now owner sid lc si sei acc ev).entityTracker.entities).isSome
      = true := by
  intro hk
  simp only [skill_damage_step]
  exact get_or_create_isSome_mono _ sid k (get_or_create_isSome_mono _ ev.target_id k hk)

theorem step_et_target (now : Int) (owner : Entity) (sid lc si sei : Nat)
    (acc : LoopState) (ev : SkillDamageEvent) :
    (alookup ev.target_id
        (skill_damage_step now owner sid lc si sei acc ev).entityTracker.entities).isSome
      = true := by
  simp only [skill_damage_step]
  exact get_or_create_isSome_mono _ sid ev.target_id
    (get_or_create_isSome_self acc.entityTracker ev.target_id)

theorem step_raidEnd (now : Int) (owner : Entity) (sid lc si sei : Nat)
    (acc : LoopState) (ev : SkillDamageEvent) :
    (skill_damage_step now owner sid lc si sei acc ev).state.raidEnd = acc.state.raidEnd := by
  rfl

theorem step_record_mono (now : Int) (owner : Entity) (sid lc si sei : Nat)
    (acc : LoopState) (ev : SkillDamageEvent) (k : String) :
    (alookup k acc.state.encounter.entities).isSome = true →
    (alookup k
        (skill_damage_step now owner sid lc si sei acc ev).state.encounter.entities).isSome
      = true := by
  intro hk
  simp only [skill_damage_step]
  exact on_damage_entities_mono acc.state now owner _ _ _ _ _ _ _ _ _ _ k hk

theorem step_record_owner (now : Int) (owner : Entity) (sid lc si sei : Nat)
    (acc : LoopState) (ev : SkillDamageEvent) :
    (alookup owner.name
        (skill_damage_step now owner sid lc si sei acc ev).state.encounter.entities).isSome
      = true := by
  simp only [skill_damage_step]
  exact on_damage_owner_record acc.state now owner _ _ _ _ _ _ _ _ _ _

theorem fold_step_et_mono (now : Int) (owner : Entity) (sid lc si sei : Nat) :
    ∀ (l : List SkillDamageEvent) (acc : LoopState) (k : Nat),
      (alookup k acc.entityTracker.entities).isSome = true →
      (alookup k ((l.foldl (fun a ev => skill_damage_step now owner sid lc si sei a ev)
          acc)).entityTracker.entities).isSome = true := by
  intro l
  induction l with
  | nil => intro acc k hk; exact hk
  | cons ev rest ih =>
    intro acc k hk
    rw [List.foldl_cons]
    exact ih _ k (step_et_mono now owner sid lc si sei acc ev k hk)

theorem fold_step_et_target (now : Int) (owner : Entity) (sid lc si sei : Nat) :
    ∀ (l : List SkillDamageEvent) (acc : LoopState) (ev : SkillDamageEvent), ev ∈ l →
      (alookup ev.target_id
        ((l.foldl (fun a ev2 => skill_damage_step now owner sid lc si sei a ev2)
          acc)).entityTracker.entities).isSome = true := by
  intro l
  induction l with
  | nil => intro acc ev h; cases h
  | cons ev0 rest ih =>
    intro acc ev h
    rw [List.foldl_cons]
    cases h with
    | head =>
      exact fold_step_et_mono now owner sid lc si sei rest _ ev0.target_id
        (step_et_target now owner sid lc si sei acc ev0)
    | tail _ h2 => exact ih _ ev h2

theorem fold_step_raidEnd (now : Int) (owner : Entity) (sid lc si sei : Nat) :
    ∀ (l : List SkillDamageEvent) (acc : LoopState),
      ((l.foldl (fun a ev => skill_damage_step now owner sid lc si sei a ev)
        acc)).state.raidEnd = acc.state.raidEnd := by
  intro l
  induction l with
  | nil => intro acc; rfl
  | cons ev rest ih =>
    intro acc
    rw [List.foldl_cons, ih]
    exact step_raidEnd now owner sid lc si sei acc ev

theorem fold_step_record_mono (now : Int) (owner : Entity) (sid lc si sei : Nat) :
    ∀ (l : List SkillDamageEvent) (acc : LoopState) (k : String),
      (alookup k acc.state.encounter.entities).isSome = true →
      (alookup k ((l.foldl (fun a ev => skill_damage_step now owner sid lc si sei a ev)
          acc)).state.encounter.entities).isSome = true := by
  intro l
  induction l with
  | nil => intro acc k hk; exact hk
  | cons ev rest ih =>
    intro acc k hk
    rw [List.foldl_cons]
    exact ih _ k (step_record_mono now owner sid lc si sei acc ev k hk)

theorem fold_step_record_owner (now : Int) (owner : Entity) (sid lc si sei : Nat) :
    ∀ (l : List SkillDamageEvent) (acc : LoopState), l ≠ [] →
      (alookup owner.name
        ((l.foldl (fun a ev => skill_damage_step now owner sid lc si sei a ev)
          acc)).state.encounter.entities).isSome = true := by
  intro l
  induction l with
  | nil => intro acc h; exact absurd rfl h
  | cons ev rest _ =>
    intro acc _
    rw [List.foldl_cons]
    exact fold_step_record_mono now owner sid lc si sei rest _ owner.name
      (step_record_owner now owner sid lc si sei acc ev)

theorem fold_astep_et_mono (now : Int) (owner : Entity) (sid lc si sei : Nat) :
    ∀ (l : List SkillDamageAbnormalMoveEvent) (acc : LoopState) (k : Nat),
      (alookup k acc.entityTracker.entities).isSome = true →
      (alookup k ((l.foldl
          (fun a ame => skill_damage_step now owner sid lc si sei a ame.skill_damage_event)
          acc)).entityTracker.entities).isSome = true := by
  intro l
  induction l with
  | nil => intro acc k hk; exact hk
  | cons ame rest ih =>
    intro acc k hk
    rw [List.foldl_cons]
    exact ih _ k (step_et_mono now owner sid lc si sei acc ame.skill_damage_event k hk)

theorem fold_astep_et_target (now : Int) (owner : Entity) (sid lc si sei : Nat) :
    ∀ (l : List SkillDamageAbnormalMoveEvent) (acc : LoopState)
      (ame : SkillDamageAbnormalMoveEvent), ame ∈ l →
      (alookup ame.skill_damage_event.target_id
        ((l.foldl
          (fun a ame2 => skill_damage_step now owner sid lc si sei a ame2.skill_damage_event)
          acc)).entityTracker.entities).isSome = true := by
  intro l
  induction l with
  | nil => intro acc ame h; cases h
  | cons ame0 rest ih =>
    intro acc ame h
    rw [List.foldl_cons]
    cases h with
    | head =>
      exact fold_astep_et_mono now owner sid lc si sei rest _ ame0.skill_damage_event.target_id
        (step_et_target now owner sid lc si sei acc ame0.skill_damage_event)
    | tail _ h2 => exact ih _ ame h2

theorem fold_astep_raidEnd (now : Int) (owner : Entity) (sid lc si sei : Nat) :
    ∀ (l : List SkillDamageAbnormalMoveEvent) (acc : LoopState),
      ((l.foldl
        (fun a ame => skill_damage_step now owner sid lc si sei a ame.skill_damage_event)
        acc)).state.raidEnd = acc.state.raidEnd := by
  intro l
  induction l with
  | nil => intro acc; rfl
  | cons ame rest ih =>
    intro acc
    rw [List.foldl_cons, ih]
    exact step_raidEnd now owner sid lc si sei acc ame.skill_damage_event

theorem fold_astep_record_mono (now : Int) (owner : Entity) (sid lc si sei : Nat) :
    ∀ (l : List SkillDamageAbnormalMoveEvent) (acc : LoopState) (k : String),
      (alookup k acc.state.encounter.entities).isSome = true →
      (alookup k ((l.foldl
          (fun a ame => skill_damage_step now owner sid lc si sei a ame.skill_damage_event)
          acc)).state.encounter.entities).isSome = true := by
  intro l
  induction l with
  | nil => intro acc k hk; exact hk
  | cons ame rest ih =>
    intro acc k hk
    rw [List.foldl_cons]
    exact ih _ k (step_record_mono now owner sid lc si sei acc ame.skill_damage_event k hk)

theorem fold_astep_record_owner (now : Int) (owner : Entity) (sid lc si sei : Nat) :
    ∀ (l : List SkillDamageAbnormalMoveEvent) (acc : LoopState), l ≠ [] →
      (alookup owner.name
        ((l.foldl
          (fun a ame => skill_damage_step now owner sid lc si sei a ame.skill_damage_event)
          acc)).state.encounter.entities).isSome = true := by
  intro l
  induction l with
  | nil => intro acc h; exact absurd rfl h
  | cons ame rest _ =>
    intro acc _
    rw [List.foldl_cons]
    exact fold_astep_record_mono now owner sid lc si sei rest _ owner.name
      (step_record_owner now owner sid lc si sei acc ame.skill_damage_event)

theorem dispatch_iter_encounter :
    ∀ (e : Nat) (now : Int) (pkt : Packet) (s s2 : LoopState),
      handle now pkt s = some s2 → s2.state.raidEnd = false →
      (dispatch_iter false false e now pkt s).st.state.encounter = s2.state.encounter := by
  intro e now pkt s s2 hh hre
  rcases Bool.eq_false_or_eq_true s2.state.bossDeadUpdate with h2 | h2 <;>
    rcases Bool.eq_false_or_eq_true (decide (100 ≤ e)) with h3 | h3 <;>
      simp [dispatch_iter, hh, hre, h2, h3]

/-- Claim C9 (confirmed): entity lookup misses during damage handling are
resolved by the get-or-create fallback, never raised as errors — after a
damage-notification packet (either opcode variant) the source object id and
every contained event's target id are present in the entity tracker, and the
aggregator's damage event still fired: the resolved owner has a combat record
in the encounter whenever the packet carried at least one event. -/
theorem c9_lookup_miss_get_or_create :
    (∀ (now : Int) (p : PKTSkillDamageNotify) (s : LoopState),
      s.state.raidEnd = false →
      (alookup p.source_id
          (dispatch_iter false false 0 now (Packet.skillDamageNotify (Except.ok p)) s
            ).st.entityTracker.entities).isSome = true
      ∧ (∀ ev ∈ p.skill_damage_events,
          (alookup ev.target_id
            (dispatch_iter false false 0 now (Packet.skillDamageNotify (Except.ok p)) s
              ).st.entityTracker.entities).isSome = true)
      ∧ (p.skill_damage_events ≠ [] →
          (alookup (s.entityTracker.get_source_entity p.source_id).1.name
            (dispatch_iter false false 0 now (Packet.skillDamageNotify (Except.ok p)) s
              ).st.state.encounter.entities).isSome = true))
    ∧ (∀ (now : Int) (p : PKTSkillDamageAbnormalMoveNotify) (s : LoopState),
      s.state.raidEnd = false →
      (alookup p.source_id
          (dispatch_iter false false 0 now
            (Packet.skillDamageAbnormalMoveNotify (Except.ok p)) s
            ).st.entityTracker.entities).isSome = true
      ∧ (∀ ame ∈ p.skill_damage_abnormal_move_events,
          (alookup ame.skill_damage_event.target_id
            (dispatch_iter false false 0 now
              (Packet.skillDamageAbnormalMoveNotify (Except.ok p)) s
              ).st.entityTracker.entities).isSome = true)
      ∧ (p.skill_damage_abnormal_move_events ≠ [] →
          (alookup (s.entityTracker.get_source_entity p.source_id).1.name
            (dispatch_iter false false 0 now
              (Packet.skillDamageAbnormalMoveNotify (Except.ok p)) s
              ).st.state.encounter.entities).isSome = true)) := by
  constructor
  · intro now p s hre
    have hh : handle now (Packet.skillDamageNotify (Except.ok p)) s
        = some (p.skill_damage_events.foldl
            (fun a ev => skill_damage_step now
              (s.entityTracker.get_source_entity p.source_id).1 p.source_id
              (s.idTracker.get_local_character_id
                (s.entityTracker.get_source_entity p.source_id).2.localPlayerId)
              p.skill_id p.skill_effect_id a ev)
            { s with entityTracker := (s.entityTracker.get_source_entity p.source_id).2 }) := rfl
    obtain ⟨hid, hparty, hstatus, hentity⟩ :=
      dispatch_iter_trackers 0 now (Packet.skillDamageNotify (Except.ok p)) s _ hh
    have hraid : (p.skill_damage_events.foldl
        (fun a ev => skill_damage_step now
          (s.entityTracker.get_source_entity p.source_id).1 p.source_id
          (s.idTracker.get_local_character_id
            (s.entityTracker.get_source_entity p.source_id).2.localPlayerId)
          p.skill_id p.skill_effect_id a ev)
        { s with entityTracker :=
            (s.entityTracker.get_source_entity p.source_id).2 }).state.raidEnd = false := by
      rw [fold_step_raidEnd]
      exact hre
    refine ⟨?_, ?_, ?_⟩
    · rw [hentity]
      exact fold_step_et_mono _ _ _ _ _ _ _ _ _
        (get_source_isSome_self s.entityTracker p.source_id)
    · intro ev hev
      rw [hentity]
      exact fold_step_et_target _ _ _ _ _ _ _ _ ev hev
    · intro hne
      have henc := dispatch_iter_encounter 0 now
        (Packet.skillDamageNotify (Except.ok p)) s _ hh hraid
      rw [henc]
      exact fold_step_record_owner _ _ _ _ _ _ _ _ hne
  · intro now p s hre
    have hh : handle now (Packet.skillDamageAbnormalMoveNotify (Except.ok p)) s
        = some (p.skill_damage_abnormal_move_events.foldl
            (fun a ame => skill_damage_step now
              (s.entityTracker.get_source_entity p.source_id).1 p.source_id
              (s.idTracker.get_local_character_id
                (s.entityTracker.get_source_entity p.source_id).2.localPlayerId)
              p.skill_id p.skill_effect_id a ame.skill_damage_event)
            { s with entityTracker := (s.entityTracker.get_source_entity p.source_id).2 }) := rfl
    obtain ⟨hid, hparty, hstatus, hentity⟩ :=
      dispatch_iter_trackers 0 now (Packet.skillDamageAbnormalMoveNotify (Except.ok p)) s _ hh
    have hraid : (p.skill_damage_abnormal_move_events.foldl
        (fun a ame => skill_damage_step now
          (s.entityTracker.get_source_entity p.source_id).1 p.source_id
          (s.idTracker.get_local_character_id
            (s.entityTracker.get_source_entity p.source_id).2.localPlayerId)
          p.skill_id p.skill_effect_id a ame.skill_damage_event)
        { s with entityTracker :=
            (s.entityTracker.get_source_entity p.source_id).2 }).state.raidEnd = false := by
      rw [fold_astep_raidEnd]
      exact hre
    refine ⟨?_, ?_, ?_⟩
    · rw [hentity]
      exact fold_astep_et_mono _ _ _ _ _ _ _ _ _
        (get_source_isSome_self s.entityTracker p.source_id)
    · intro ame hame
      rw [hentity]
      exact fold_astep_et_target _ _ _ _ _ _ _ _ ame hame
    · intro hne
      have henc := dispatch_iter_encounter 0 now
        (Packet.skillDamageAbnormalMoveNotify (Except.ok p)) s _ hh hraid
      rw [henc]
      exact fold_astep_record_owner _ _ _ _ _ _ _ _ hne

/-- Claim C9, witness: damage from unseen source 41 onto unseen target 42
against the empty initial state creates both placeholders and records the
owner's damage. -/
theorem c9_lookup_miss_get_or_create_witness :
    ({} : LoopState).state.raidEnd = false
    ∧ (alookup c9Pkt.source_id (dispatch_iter false false 0 0
        (Packet.skillDamageNotify (Except.ok c9Pkt)) {}).st.entityTracker.entities).isSome = true
    ∧ (alookup (42 : Nat) (dispatch_iter false false 0 0
        (Packet.skillDamageNotify (Except.ok c9Pkt)) {}).st.entityTracker.entities).isSome = true
    ∧ (alookup (({} : LoopState).entityTracker.get_source_entity c9Pkt.source_id).1.name
        (dispatch_iter false false 0 0
          (Packet.skillDamageNotify (Except.ok c9Pkt)) {}).st.state.encounter.entities).isSome
      = true := by
  refine ⟨by decide, ?_, ?_, ?_⟩
  · exact (c9_lookup_miss_get_or_create.1 0 c9Pkt {} (by decide)).1
  · exact (c9_lookup_miss_get_or_create.1 0 c9Pkt {} (by decide)).2.1
      { target_id := 42 } (by decide)
  · exact (c9_lookup_miss_get_or_create.1 0 c9Pkt {} (by decide)).2.2 (by decide)
